import Mathlib

-- Verification of the RevengeForDino combat core against its specification.
-- Shallow embedding of: the combat state machine (src/combat/gameState.js),
-- the code sandbox executor (src/executor.js), and the boss entity
-- (src/combat/theCrash.js).  JS numbers are modelled as rationals; physics
-- bodies are modelled by identifiers together with their user data.

namespace RevengeForDino

-- === Tuning constants (src/combat/combatConstants.js) ===

def CRASH_INITIAL_RADIUS : ℚ := 12

def CRASH_MAX_RADIUS : ℚ := 80

def CRASH_GROW_RATE : ℚ := 8/100

def EYE_MOMENTUM_SCALE : ℚ := 5/1000

def SUCTION_STRENGTH : ℚ := 300

def SUCTION_GROWTH : ℚ := 200

def DETACH_FORCE_THRESHOLD : ℚ := 15

-- === Combat state machine (src/combat/gameState.js) ===

inductive CombatPhase
  | idle
  | entering
  | combat
  | victory
  | defeat
deriving DecidableEq, Repr

structure GameState where
  state : CombatPhase
  visualRadius : ℚ
  elapsed : ℚ
  damageFlash : ℚ
  objectsCreated : ℕ
  objectsConsumed : ℕ
  totalDamageDealt : ℚ
  victoryTime : ℚ
deriving DecidableEq, Repr

-- start(): guard on idle, reset fields, move to entering.  The source resets
-- visualRadius, elapsed, objectsCreated, objectsConsumed and totalDamageDealt;
-- it does not touch victoryTime.
def start (g : GameState) : GameState :=
  if g.state ≠ CombatPhase.idle then g
  else
    { g with
      state := CombatPhase.entering
      visualRadius := CRASH_INITIAL_RADIUS
      elapsed := 0
      objectsCreated := 0
      objectsConsumed := 0
      totalDamageDealt := 0 }

def enterCombat (g : GameState) : GameState :=
  if g.state = CombatPhase.entering then { g with state := CombatPhase.combat } else g

-- update(dt) reads the health resource and the clock; both are passed in
-- explicitly here (healthBar.getHealth() and Date.now() in the source).
def update (health now dt : ℚ) (g : GameState) : GameState :=
  if g.state ≠ CombatPhase.entering ∧ g.state ≠ CombatPhase.combat then g
  else
    let g1 := { g with elapsed := g.elapsed + dt }
    let g2 :=
      if g1.state = CombatPhase.combat then
        { g1 with visualRadius := g1.visualRadius + CRASH_GROW_RATE * dt }
      else g1
    let g3 :=
      if 0 < g2.damageFlash then
        { g2 with damageFlash := max 0 (g2.damageFlash - dt) }
      else g2
    if health ≤ 0 ∧ g3.state = CombatPhase.combat then
      { g3 with state := CombatPhase.victory, victoryTime := now }
    else if CRASH_MAX_RADIUS ≤ g3.visualRadius then
      { g3 with state := CombatPhase.defeat }
    else g3

def triggerDamageFlash (g : GameState) : GameState :=
  { g with damageFlash := 2/10 }

def isActive (g : GameState) : Bool :=
  g.state == CombatPhase.entering || g.state == CombatPhase.combat

def trackObjectCreated (g : GameState) : GameState :=
  { g with objectsCreated := g.objectsCreated + 1 }

def trackObjectConsumed (g : GameState) : GameState :=
  { g with objectsConsumed := g.objectsConsumed + 1 }

def trackDamage (amount : ℚ) (g : GameState) : GameState :=
  { g with totalDamageDealt := g.totalDamageDealt + amount }

-- === Code sandbox executor (src/executor.js) ===

-- A tracked entity as the executor sees it: the identifier of its physics
-- body, the spawned and ephemeral flags, and the isEphemeral tag written
-- into the body user data.
structure EphObj where
  bodyId : ℕ
  spawned : Bool := false
  ephemeral : Bool := false
  bodyTagEphemeral : Bool := false
deriving DecidableEq, Repr

def MAX_EPHEMERAL : ℕ := 400

-- Executor-visible state: the ephemeral ring buffer, the shared registry,
-- the bodies destroyed so far, and the rootBodies list of the current
-- execute() call.
structure ExecState where
  ephemeral : List EphObj
  registry : List EphObj
  destroyedBodies : List ℕ
  rootBodies : List ℕ
deriving DecidableEq, Repr

/-- Modelled from the spec: objects.js is not part of the given sources, only
its callers are.  Per the spec the Registry is an insertion-ordered collection
with register and unregister operations in which no entity appears twice;
register appends and unregister removes that entry. -/
def unregisterObject (o : EphObj) (reg : List EphObj) : List EphObj :=
  reg.erase o

-- The flag mutations wrappedRegister performs on the object: spawned is set
-- always; inside an update the ephemeral flag and the isEphemeral tag of the
-- body user data are set as well.
def tagRoot (o : EphObj) : EphObj :=
  { o with spawned := true }

def tagEphemeral (o : EphObj) : EphObj :=
  { o with spawned := true, ephemeral := true, bodyTagEphemeral := true }

-- wrappedRegister from execute() in src/executor.js.  In the source the
-- object is mutated (spawned, ephemeral, user data tag) after being pushed
-- into the registry; since the registry holds the same reference, the model
-- registers the object with its final flags.
def wrappedRegister (inUpdate : Bool) (o : EphObj) (s : ExecState) : ExecState :=
  let o := if inUpdate then tagEphemeral o else tagRoot o
  let reg := s.registry ++ [o]
  if inUpdate then
    let buf := s.ephemeral ++ [o]
    if MAX_EPHEMERAL < buf.length then
      match buf with
      | [] => { s with ephemeral := [], registry := reg }
      | old :: rest =>
          { s with
            ephemeral := rest
            registry := unregisterObject old reg
            destroyedBodies := s.destroyedBodies ++ [old.bodyId] }
    else { s with ephemeral := buf, registry := reg }
  else { s with registry := reg, rootBodies := s.rootBodies ++ [o.bodyId] }

-- An updater task as pushed by execute(): the dead flag and the rootBodies
-- captured from the creating call.
structure UpdaterTask where
  dead : Bool
  rootBodies : List ℕ
deriving DecidableEq, Repr

-- One invocation of the wrapped update() of an updater task.  isActiveBody
-- gives b.isActive() for each root body.  Returns the task after the call and
-- whether the inner (wrapped) update function was actually invoked.
def updaterStep (isActiveBody : ℕ → Bool) (u : UpdaterTask) : UpdaterTask × Bool :=
  if 0 < u.rootBodies.length && u.rootBodies.all (fun b => !isActiveBody b) then
    ({ u with dead := true }, false)
  else (u, true)

-- === Boss entity: contact handling and destruction (src/combat/theCrash.js) ===

-- Body user data as read and written by the contact handlers.
structure UserData where
  isCursor : Bool := false
  isGeminiIcon : Bool := false
  isCrash : Bool := false
  isEphemeral : Bool := false
  isConsumed : Bool := false
  isPageElement : Bool := false
deriving DecidableEq, Repr

inductive BodyType
  | bstatic
  | kinematic
  | dynamic
deriving DecidableEq, Repr

-- The view of a physics body the contact handlers use: user data, body type,
-- linear speed (the length of the linear velocity) and mass.
structure ContactBody where
  ud : UserData
  btype : BodyType
  speed : ℚ
  mass : ℚ
deriving DecidableEq, Repr

-- The state touched by the boss entity: per-body data, the health resource
-- (healthBar currentHealth), the game state, the scheduledDestroys queue,
-- the registry (objects array, as body ids) and the bodies destroyed so far
-- in destruction order.
structure CrashWorld where
  bodies : ℕ → ContactBody
  health : ℚ
  gs : GameState
  scheduledDestroys : List ℕ
  registry : List ℕ
  destroyedBodies : List ℕ

-- healthBar.takeDamage from src/healthBar.js: clamp at zero.
def takeDamage (amount health : ℚ) : ℚ :=
  max 0 (health - amount)

def voidExempt (ud : UserData) : Bool :=
  ud.isCursor || ud.isGeminiIcon || ud.isCrash || ud.isEphemeral

def eyeExempt (ud : UserData) : Bool :=
  ud.isCursor || ud.isGeminiIcon || ud.isCrash

-- handleVoidContact for a begin contact whose crash fixture is the void core
-- and whose other body is b.
def handleVoidContact (b : ℕ) (s : CrashWorld) : CrashWorld :=
  let body := s.bodies b
  if voidExempt body.ud then s
  else if body.btype = BodyType.bstatic then s
  else
    { s with
      bodies := Function.update s.bodies b { body with ud := { body.ud with isConsumed := true } }
      scheduledDestroys := s.scheduledDestroys ++ [b]
      gs := trackObjectConsumed s.gs }

-- damage = linearSpeed * mass * EYE_MOMENTUM_SCALE, as computed in
-- handleEyeContact.
def eyeDamage (body : ContactBody) : ℚ :=
  body.speed * body.mass * EYE_MOMENTUM_SCALE

-- handleEyeContact for a begin contact whose crash fixture is the eye and
-- whose other body is b.
def handleEyeContact (b : ℕ) (s : CrashWorld) : CrashWorld :=
  let body := s.bodies b
  if eyeExempt body.ud then s
  else if body.btype = BodyType.bstatic then s
  else
    let s1 :=
      if 1/10 < eyeDamage body then
        { s with
          health := takeDamage (eyeDamage body) s.health
          gs := trackDamage (eyeDamage body) (triggerDamageFlash s.gs) }
      else s
    if body.ud.isEphemeral then
      { s1 with scheduledDestroys := s1.scheduledDestroys ++ [b] }
    else s1

-- world.destroyBody wrapped in try/catch: destroying an already destroyed
-- body is a benign no-op.
def destroyBody (b : ℕ) (destroyed : List ℕ) : List ℕ :=
  if b ∈ destroyed then destroyed else destroyed ++ [b]

-- The drain loop of processDestroys, acting on the queue in pop order (the
-- source pops from the end of scheduledDestroys).  For each body it removes
-- the matching registry entry, then destroys the body.
def drainList (queue reg destroyed : List ℕ) : List ℕ × List ℕ :=
  match queue with
  | [] => (reg, destroyed)
  | b :: rest => drainList rest (reg.erase b) (destroyBody b destroyed)

def processDestroys (s : CrashWorld) : CrashWorld :=
  let res := drainList s.scheduledDestroys.reverse s.registry s.destroyedBodies
  { s with scheduledDestroys := [], registry := res.1, destroyedBodies := res.2 }

-- === Suction force field (applySuction in src/combat/theCrash.js) ===

-- Force magnitude applied at distance d from the boss center when the boss
-- visual radius is r: (base + growth * (r - initial)) / d.
def suctionForceMag (r d : ℚ) : ℚ :=
  (SUCTION_STRENGTH + SUCTION_GROWTH * (r - CRASH_INITIAL_RADIUS)) / d

-- Force vector applied to a body at offset (dx, dy) short of the boss center
-- (dx = cx - pos.x, dy = cy - pos.y), where d is the distance, that is
-- d = sqrt(dx^2 + dy^2) in the source.
def suctionForceVec (r dx dy d : ℚ) : ℚ × ℚ :=
  (dx / d * suctionForceMag r d, dy / d * suctionForceMag r d)

-- === Per-tick operations touching the game state ===

-- The operations of the running system that reach the combat game state:
-- a successful search (handleSearch in src/main.js, which calls
-- trackObjectCreated with no combat-state guard once the intro is complete
-- and no generation is in flight), the begin-contact dispatch (gated on
-- gameState.isActive() in theCrash.js), the per-tick state machine update,
-- and the start and enterCombat transitions.
inductive GameOp
  | search (introComplete generating : Bool)
  | beginContactVoid (b : ℕ)
  | beginContactEye (b : ℕ)
  | tick (health now dt : ℚ)
  | startCall
  | enterCombatCall
deriving Repr

def applyOp (s : CrashWorld) : GameOp → CrashWorld
  | GameOp.search introComplete generating =>
      if introComplete && !generating then { s with gs := trackObjectCreated s.gs } else s
  | GameOp.beginContactVoid b => if isActive s.gs then handleVoidContact b s else s
  | GameOp.beginContactEye b => if isActive s.gs then handleEyeContact b s else s
  | GameOp.tick health now dt => { s with gs := update health now dt s.gs }
  | GameOp.startCall => { s with gs := start s.gs }
  | GameOp.enterCombatCall => { s with gs := enterCombat s.gs }

-- === Main loop phase order (loop in src/main.js) ===

inductive TickPhase
  | introUpdate
  | luckySetup
  | updaterRun
  | geminiUpdate
  | stateMachineUpdate
  | bossUpdate
  | physicsStep
  | oobCleanup
  | render
deriving DecidableEq, Repr

-- The sequence of phases one call of loop() performs, in source order:
-- intro.update(); setupLuckyClickHandler(); the updater loop over
-- executor.getUpdaters(); geminiIcon.update(); when gameState.isActive()
-- also gameState.update and crash.update; world.step; cleanupOOB and the
-- draw calls.
def tickTrace (active : Bool) : List TickPhase :=
  [TickPhase.introUpdate, TickPhase.luckySetup, TickPhase.updaterRun, TickPhase.geminiUpdate] ++
    (if active then [TickPhase.stateMachineUpdate, TickPhase.bossUpdate] else []) ++
    [TickPhase.physicsStep, TickPhase.oobCleanup, TickPhase.render]

def isCorePhase (p : TickPhase) : Bool :=
  p == TickPhase.stateMachineUpdate || p == TickPhase.bossUpdate ||
    p == TickPhase.updaterRun || p == TickPhase.physicsStep

-- === Sample states used to evaluate the development on concrete inputs ===

def mkGameState (st : CombatPhase) : GameState :=
  { state := st
    visualRadius := CRASH_INITIAL_RADIUS
    elapsed := 0
    damageFlash := 0
    objectsCreated := 0
    objectsConsumed := 0
    totalDamageDealt := 0
    victoryTime := 0 }

def plainDynamicBody (speed mass : ℚ) : ContactBody :=
  { ud := {}, btype := BodyType.dynamic, speed := speed, mass := mass }

def ephemeralDynamicBody : ContactBody :=
  { ud := { isEphemeral := true }, btype := BodyType.dynamic, speed := 0, mass := 1 }

def mkCrashWorld (body : ContactBody) (st : CombatPhase) : CrashWorld :=
  { bodies := fun _ => body
    health := 100
    gs := mkGameState st
    scheduledDestroys := []
    registry := []
    destroyedBodies := [] }

def emptyExecState : ExecState :=
  { ephemeral := [], registry := [], destroyedBodies := [], rootBodies := [] }

def fullExecState : ExecState :=
  { ephemeral := List.replicate MAX_EPHEMERAL { bodyId := 7 }
    registry := []
    destroyedBodies := []
    rootBodies := [] }

-- === Helper lemmas ===

theorem start_of_not_idle (g : GameState) (h : g.state ≠ CombatPhase.idle) :
    start g = g := by
  simp [start, h]

theorem start_victoryTime (g : GameState) : (start g).victoryTime = g.victoryTime := by
  unfold start
  split <;> rfl

theorem update_of_terminal (health now dt : ℚ) (g : GameState)
    (h : g.state = CombatPhase.victory ∨ g.state = CombatPhase.defeat) :
    update health now dt g = g := by
  rcases h with h | h <;> simp [update, h]

theorem update_counters (health now dt : ℚ) (g : GameState) :
    (update health now dt g).objectsCreated = g.objectsCreated ∧
    (update health now dt g).objectsConsumed = g.objectsConsumed ∧
    (update health now dt g).totalDamageDealt = g.totalDamageDealt := by
  simp only [update]
  split_ifs <;> simp

theorem enterCombat_counters (g : GameState) :
    (enterCombat g).objectsCreated = g.objectsCreated ∧
    (enterCombat g).objectsConsumed = g.objectsConsumed ∧
    (enterCombat g).totalDamageDealt = g.totalDamageDealt ∧
    (enterCombat g).victoryTime = g.victoryTime := by
  unfold enterCombat
  split <;> simp

-- === C4 ===

/-- C4 counterexample: from the idle state with a nonzero victoryTime, start()
does not reset victoryTime to 0, against the claim that all stat counters,
victoryTime included, are reset. -/
theorem start_victoryTime_cex :
    (start { state := CombatPhase.idle, visualRadius := 0, elapsed := 3, damageFlash := 0,
             objectsCreated := 1, objectsConsumed := 2, totalDamageDealt := 4,
             victoryTime := 5 }).victoryTime ≠ 0 := by decide

/-- C4 (amended): start() is a no-op whenever the state is not idle; when the
state is idle it resets visualRadius to the initial radius, elapsed to 0 and
the counters objectsCreated, objectsConsumed and totalDamageDealt to 0 and
transitions to entering; victoryTime is left unchanged in both cases. -/
theorem start_resets_spec (g : GameState) :
    (g.state ≠ CombatPhase.idle → start g = g) ∧
    (g.state = CombatPhase.idle →
      start g =
        { g with
          state := CombatPhase.entering
          visualRadius := CRASH_INITIAL_RADIUS
          elapsed := 0
          objectsCreated := 0
          objectsConsumed := 0
          totalDamageDealt := 0 }) ∧
    (start g).victoryTime = g.victoryTime := by
  refine ⟨fun h => start_of_not_idle g h, fun h => ?_, start_victoryTime g⟩
  simp [start, h]

/-- C4 witness: the amended start() behavior evaluated in the idle state and in
the combat state. -/
theorem start_resets_spec_witness :
    (mkGameState CombatPhase.idle).state = CombatPhase.idle ∧
    start (mkGameState CombatPhase.idle) =
      { mkGameState CombatPhase.idle with
        state := CombatPhase.entering
        visualRadius := CRASH_INITIAL_RADIUS
        elapsed := 0
        objectsCreated := 0
        objectsConsumed := 0
        totalDamageDealt := 0 } ∧
    start (mkGameState CombatPhase.combat) = mkGameState CombatPhase.combat :=
  ⟨rfl, (start_resets_spec (mkGameState CombatPhase.idle)).2.1 rfl,
    (start_resets_spec (mkGameState CombatPhase.combat)).1 (by decide)⟩

-- === C3 ===

/-- C3: on eye contact with a non-exempt, non-static body, the damage equals
linearSpeed * mass * EYE_MOMENTUM_SCALE (0.005); exactly when the damage
exceeds 0.1 the health resource takes the damage, the damage flash is set and
totalDamageDealt accumulates; otherwise health, flash and stats are untouched.
In particular mass 2 at speed 5 gives damage 0.05 and changes nothing. -/
theorem eye_contact_damage_spec (s : CrashWorld) (b : ℕ)
    (hex : eyeExempt (s.bodies b).ud = false)
    (hst : (s.bodies b).btype ≠ BodyType.bstatic) :
    eyeDamage (s.bodies b) = (s.bodies b).speed * (s.bodies b).mass * (5/1000) ∧
    (1/10 < eyeDamage (s.bodies b) →
      (handleEyeContact b s).health = takeDamage (eyeDamage (s.bodies b)) s.health ∧
      (handleEyeContact b s).gs.damageFlash = 2/10 ∧
      (handleEyeContact b s).gs.totalDamageDealt
        = s.gs.totalDamageDealt + eyeDamage (s.bodies b)) ∧
    (¬ 1/10 < eyeDamage (s.bodies b) →
      (handleEyeContact b s).health = s.health ∧ (handleEyeContact b s).gs = s.gs) := by
  refine ⟨rfl, ?_, ?_⟩
  · intro h
    unfold handleEyeContact
    simp only [hex, Bool.false_eq_true, if_false, if_neg hst, if_pos h]
    split <;> simp [trackDamage, triggerDamageFlash]
  · intro h
    unfold handleEyeContact
    simp only [hex, Bool.false_eq_true, if_false, if_neg hst, if_neg h]
    split <;> simp

/-- C3 witness: the boundary case from the spec, mass 2 and speed 5, gives
damage 0.05 and leaves health and game state unchanged. -/
theorem eye_contact_damage_spec_witness :
    eyeExempt ((mkCrashWorld (plainDynamicBody 5 2) CombatPhase.combat).bodies 0).ud = false ∧
    ((mkCrashWorld (plainDynamicBody 5 2) CombatPhase.combat).bodies 0).btype
      ≠ BodyType.bstatic ∧
    eyeDamage ((mkCrashWorld (plainDynamicBody 5 2) CombatPhase.combat).bodies 0) = 5/100 ∧
    (handleEyeContact 0 (mkCrashWorld (plainDynamicBody 5 2) CombatPhase.combat)).health
      = (mkCrashWorld (plainDynamicBody 5 2) CombatPhase.combat).health ∧
    (handleEyeContact 0 (mkCrashWorld (plainDynamicBody 5 2) CombatPhase.combat)).gs
      = (mkCrashWorld (plainDynamicBody 5 2) CombatPhase.combat).gs :=
  ⟨by decide, by decide,
    by norm_num [eyeDamage, plainDynamicBody, mkCrashWorld, EYE_MOMENTUM_SCALE],
    ((eye_contact_damage_spec _ 0 (by decide) (by decide)).2.2
      (by norm_num [eyeDamage, plainDynamicBody, mkCrashWorld, EYE_MOMENTUM_SCALE])).1,
    ((eye_contact_damage_spec _ 0 (by decide) (by decide)).2.2
      (by norm_num [eyeDamage, plainDynamicBody, mkCrashWorld, EYE_MOMENTUM_SCALE])).2⟩

-- === C10 ===

/-- C10: a begin contact between the void core and a body tagged isEphemeral
is a complete no-op: the state is unchanged, so the body is not marked
consumed, nothing is enqueued, and objectsConsumed does not move. -/
theorem void_contact_ephemeral_noop (s : CrashWorld) (b : ℕ)
    (h : (s.bodies b).ud.isEphemeral = true) :
    handleVoidContact b s = s := by
  simp [handleVoidContact, voidExempt, h]

/-- C10 witness: the no-op evaluated on a concrete ephemeral body. -/
theorem void_contact_ephemeral_noop_witness :
    ((mkCrashWorld ephemeralDynamicBody CombatPhase.combat).bodies 0).ud.isEphemeral = true ∧
    handleVoidContact 0 (mkCrashWorld ephemeralDynamicBody CombatPhase.combat) =
      mkCrashWorld ephemeralDynamicBody CombatPhase.combat :=
  ⟨rfl, void_contact_ephemeral_noop _ 0 rfl⟩

-- === C8 helpers ===

theorem handleVoidContact_step (s : CrashWorld) (b : ℕ)
    (hex : voidExempt (s.bodies b).ud = false)
    (hst : (s.bodies b).btype ≠ BodyType.bstatic) :
    handleVoidContact b s =
      { s with
        bodies := Function.update s.bodies b
          { s.bodies b with ud := { (s.bodies b).ud with isConsumed := true } }
        scheduledDestroys := s.scheduledDestroys ++ [b]
        gs := trackObjectConsumed s.gs } := by
  unfold handleVoidContact
  simp [hex, hst]

theorem destroyBody_nodup (b : ℕ) (d : List ℕ) (h : d.Nodup) :
    (destroyBody b d).Nodup := by
  unfold destroyBody
  split
  · exact h
  · next hmem => simp [List.nodup_append, h, hmem]

theorem drainList_nodup (q : List ℕ) :
    ∀ reg d, d.Nodup → (drainList q reg d).2.Nodup := by
  induction q with
  | nil => intro reg d h; exact h
  | cons b rest ih => intro reg d h; exact ih _ _ (destroyBody_nodup b d h)

theorem processDestroys_nodup (s : CrashWorld) (h : s.destroyedBodies.Nodup) :
    (processDestroys s).destroyedBodies.Nodup :=
  drainList_nodup _ _ _ h

-- === C8 ===

/-- C8 counterexample: handling a begin contact twice for the same non-exempt
dynamic body before its destruction increments objectsConsumed twice and
enqueues the body twice; the isConsumed mark set by the first handling is
never consulted, so it does not guard duplicate handling. -/
theorem void_contact_duplicate_cex :
    (handleVoidContact 0 (handleVoidContact 0
        (mkCrashWorld (plainDynamicBody 0 1) CombatPhase.combat))).gs.objectsConsumed = 2 ∧
    (handleVoidContact 0 (handleVoidContact 0
        (mkCrashWorld (plainDynamicBody 0 1) CombatPhase.combat))).scheduledDestroys
      = [0, 0] := by
  constructor <;> rfl

/-- C8 (amended): core contact processing is not idempotent per body — the
consumed mark does not guard duplicate handling, so a second begin-contact
handling of the same non-exempt, non-static body enqueues it again and
increments objectsConsumed again; nevertheless the deferred drain never
destroys a body twice: the destroyed-bodies list stays duplicate-free even
when the queue holds the same body more than once, because destroying an
already destroyed body is a benign no-op. -/
theorem void_contact_duplicate_handling (s : CrashWorld) (b : ℕ)
    (hex : voidExempt (s.bodies b).ud = false)
    (hst : (s.bodies b).btype ≠ BodyType.bstatic)
    (hnd : s.destroyedBodies.Nodup) :
    (handleVoidContact b (handleVoidContact b s)).gs.objectsConsumed
      = s.gs.objectsConsumed + 2 ∧
    (handleVoidContact b (handleVoidContact b s)).scheduledDestroys
      = s.scheduledDestroys ++ [b, b] ∧
    (processDestroys (handleVoidContact b (handleVoidContact b s))).destroyedBodies.Nodup := by
  have h1 := handleVoidContact_step s b hex hst
  have hb1 : (handleVoidContact b s).bodies b
      = { s.bodies b with ud := { (s.bodies b).ud with isConsumed := true } } := by
    rw [h1]
    exact Function.update_same ..
  have hex1 : voidExempt ((handleVoidContact b s).bodies b).ud = false := by
    rw [hb1]
    simpa [voidExempt] using hex
  have hst1 : ((handleVoidContact b s).bodies b).btype ≠ BodyType.bstatic := by
    rw [hb1]
    exact hst
  have h2 := handleVoidContact_step (handleVoidContact b s) b hex1 hst1
  refine ⟨?_, ?_, ?_⟩
  · rw [h2]
    simp only [trackObjectConsumed]
    rw [h1]
    simp [trackObjectConsumed]
  · rw [h2]
    simp only []
    rw [h1]
    simp
  · apply processDestroys_nodup
    rw [h2]
    simp only []
    rw [h1]
    simpa using hnd

/-- C8 witness: the amended duplicate-handling behavior evaluated on a
concrete dynamic body. -/
theorem void_contact_duplicate_handling_witness :
    voidExempt ((mkCrashWorld (plainDynamicBody 0 1) CombatPhase.combat).bodies 0).ud
      = false ∧
    ((mkCrashWorld (plainDynamicBody 0 1) CombatPhase.combat).bodies 0).btype
      ≠ BodyType.bstatic ∧
    (mkCrashWorld (plainDynamicBody 0 1) CombatPhase.combat).destroyedBodies.Nodup ∧
    ((handleVoidContact 0 (handleVoidContact 0
        (mkCrashWorld (plainDynamicBody 0 1) CombatPhase.combat))).gs.objectsConsumed
      = (mkCrashWorld (plainDynamicBody 0 1) CombatPhase.combat).gs.objectsConsumed + 2 ∧
    (handleVoidContact 0 (handleVoidContact 0
        (mkCrashWorld (plainDynamicBody 0 1) CombatPhase.combat))).scheduledDestroys
      = (mkCrashWorld (plainDynamicBody 0 1) CombatPhase.combat).scheduledDestroys
          ++ [0, 0] ∧
    (processDestroys (handleVoidContact 0 (handleVoidContact 0
        (mkCrashWorld (plainDynamicBody 0 1)
          CombatPhase.combat)))).destroyedBodies.Nodup) :=
  ⟨by decide, by decide, by simp [mkCrashWorld],
    void_contact_duplicate_handling _ 0 (by decide) (by decide) (by simp [mkCrashWorld])⟩

-- === C9 helpers ===

theorem handleVoidContact_gs (b : ℕ) (s : CrashWorld) :
    (handleVoidContact b s).gs = s.gs ∨
      (handleVoidContact b s).gs = trackObjectConsumed s.gs := by
  simp only [handleVoidContact]
  split
  · exact Or.inl rfl
  split
  · exact Or.inl rfl
  · exact Or.inr rfl

theorem handleEyeContact_gs (b : ℕ) (s : CrashWorld) :
    (handleEyeContact b s).gs = s.gs ∨
      ∃ dmg, 1/10 < dmg ∧
        (handleEyeContact b s).gs = trackDamage dmg (triggerDamageFlash s.gs) := by
  simp only [handleEyeContact]
  split
  · exact Or.inl rfl
  split
  · exact Or.inl rfl
  split
  · split
    · next _ h => exact Or.inr ⟨_, h, rfl⟩
    · exact Or.inl rfl
  · split
    · next h => exact Or.inr ⟨_, h, rfl⟩
    · exact Or.inl rfl

theorem isActive_of_terminal (g : GameState)
    (h : g.state = CombatPhase.victory ∨ g.state = CombatPhase.defeat) :
    isActive g = false := by
  rcases h with h | h <;> simp [isActive, h]

-- === C9 ===

/-- C9 counterexample: with the combat state terminal (victory), a successful
search still increments objectsCreated — the stat counters do not all freeze
once a terminal state is reached. -/
theorem stats_freeze_cex :
    (applyOp (mkCrashWorld (plainDynamicBody 0 1) CombatPhase.victory)
        (GameOp.search true false)).gs.objectsCreated
      ≠ (mkCrashWorld (plainDynamicBody 0 1) CombatPhase.victory).gs.objectsCreated := by
  decide

/-- C9 (amended): objectsCreated, objectsConsumed and totalDamageDealt never
decrease under any system operation while the state is entering or combat;
once the state is terminal (victory or defeat) the state stays terminal and
objectsConsumed, totalDamageDealt and victoryTime are frozen, but
objectsCreated can still grow, through successful searches (playground
spawns). -/
theorem stats_freeze_spec (s : CrashWorld) (op : GameOp) :
    (s.gs.state = CombatPhase.victory ∨ s.gs.state = CombatPhase.defeat →
      (applyOp s op).gs.state = s.gs.state ∧
      (applyOp s op).gs.objectsConsumed = s.gs.objectsConsumed ∧
      (applyOp s op).gs.totalDamageDealt = s.gs.totalDamageDealt ∧
      (applyOp s op).gs.victoryTime = s.gs.victoryTime ∧
      s.gs.objectsCreated ≤ (applyOp s op).gs.objectsCreated) ∧
    (s.gs.state = CombatPhase.entering ∨ s.gs.state = CombatPhase.combat →
      s.gs.objectsCreated ≤ (applyOp s op).gs.objectsCreated ∧
      s.gs.objectsConsumed ≤ (applyOp s op).gs.objectsConsumed ∧
      s.gs.totalDamageDealt ≤ (applyOp s op).gs.totalDamageDealt) := by
  cases op with
  | search ic gen =>
      constructor <;> intro h <;> simp only [applyOp] <;> split <;>
        simp [trackObjectCreated, Nat.le_succ]
  | beginContactVoid b =>
      constructor
      · intro h
        simp [applyOp, isActive_of_terminal s.gs h]
      · intro h
        simp only [applyOp]
        split
        · rcases handleVoidContact_gs b s with hg | hg <;>
            simp [hg, trackObjectConsumed, Nat.le_succ]
        · simp
  | beginContactEye b =>
      constructor
      · intro h
        simp [applyOp, isActive_of_terminal s.gs h]
      · intro h
        simp only [applyOp]
        split
        · rcases handleEyeContact_gs b s with hg | ⟨dmg, hdmg, hg⟩
          · simp [hg]
          · rw [hg]
            refine ⟨le_of_eq rfl, le_of_eq rfl, ?_⟩
            show s.gs.totalDamageDealt ≤ s.gs.totalDamageDealt + dmg
            linarith
        · simp
  | tick health now dt =>
      constructor
      · intro h
        simp [applyOp, update_of_terminal health now dt s.gs h]
      · intro h
        have hc := update_counters health now dt s.gs
        simp [applyOp, hc.1, hc.2.1, hc.2.2]
  | startCall =>
      have hs : ∀ st, s.gs.state = st → st ≠ CombatPhase.idle → applyOp s GameOp.startCall = s := by
        intro st hst hne
        simp [applyOp, start_of_not_idle s.gs (hst ▸ hne)]
      constructor
      · intro h
        rcases h with h | h <;> rw [hs _ h (by decide)] <;> simp
      · intro h
        rcases h with h | h <;> rw [hs _ h (by decide)] <;> simp
  | enterCombatCall =>
      constructor
      · intro h
        have : enterCombat s.gs = s.gs := by
          rcases h with h | h <;> simp [enterCombat, h]
        simp [applyOp, this]
      · intro h
        have hc := enterCombat_counters s.gs
        simp [applyOp, hc.1, hc.2.1, hc.2.2.1]

/-- C9 witness: the amended freeze behavior evaluated at a terminal state under
a successful search. -/
theorem stats_freeze_spec_witness :
    ((mkCrashWorld (plainDynamicBody 0 1) CombatPhase.victory).gs.state
        = CombatPhase.victory ∨
      (mkCrashWorld (plainDynamicBody 0 1) CombatPhase.victory).gs.state
        = CombatPhase.defeat) ∧
    ((applyOp (mkCrashWorld (plainDynamicBody 0 1) CombatPhase.victory)
        (GameOp.search true false)).gs.state
      = (mkCrashWorld (plainDynamicBody 0 1) CombatPhase.victory).gs.state ∧
    (applyOp (mkCrashWorld (plainDynamicBody 0 1) CombatPhase.victory)
        (GameOp.search true false)).gs.objectsConsumed
      = (mkCrashWorld (plainDynamicBody 0 1) CombatPhase.victory).gs.objectsConsumed ∧
    (applyOp (mkCrashWorld (plainDynamicBody 0 1) CombatPhase.victory)
        (GameOp.search true false)).gs.totalDamageDealt
      = (mkCrashWorld (plainDynamicBody 0 1) CombatPhase.victory).gs.totalDamageDealt ∧
    (applyOp (mkCrashWorld (plainDynamicBody 0 1) CombatPhase.victory)
        (GameOp.search true false)).gs.victoryTime
      = (mkCrashWorld (plainDynamicBody 0 1) CombatPhase.victory).gs.victoryTime ∧
    (mkCrashWorld (plainDynamicBody 0 1) CombatPhase.victory).gs.objectsCreated
      ≤ (applyOp (mkCrashWorld (plainDynamicBody 0 1) CombatPhase.victory)
          (GameOp.search true false)).gs.objectsCreated) :=
  ⟨Or.inl rfl,
    (stats_freeze_spec (mkCrashWorld (plainDynamicBody 0 1) CombatPhase.victory)
      (GameOp.search true false)).1 (Or.inl rfl)⟩

-- === C1 and C2 helpers ===

theorem wrappedRegister_false_def (o : EphObj) (s : ExecState) :
    wrappedRegister false o s =
      { s with
        registry := s.registry ++ [tagRoot o]
        rootBodies := s.rootBodies ++ [o.bodyId] } := rfl

theorem wrappedRegister_true_def (o : EphObj) (s : ExecState) :
    wrappedRegister true o s =
      if MAX_EPHEMERAL < (s.ephemeral ++ [tagEphemeral o]).length then
        match s.ephemeral ++ [tagEphemeral o] with
        | [] => { s with ephemeral := [], registry := s.registry ++ [tagEphemeral o] }
        | old :: rest =>
            { s with
              ephemeral := rest
              registry := unregisterObject old (s.registry ++ [tagEphemeral o])
              destroyedBodies := s.destroyedBodies ++ [old.bodyId] }
      else
        { s with
          ephemeral := s.ephemeral ++ [tagEphemeral o]
          registry := s.registry ++ [tagEphemeral o] } := rfl

theorem wrappedRegister_bound (u : Bool) (o : EphObj) (s : ExecState)
    (h : s.ephemeral.length ≤ MAX_EPHEMERAL) :
    (wrappedRegister u o s).ephemeral.length ≤ MAX_EPHEMERAL := by
  cases u with
  | false => exact h
  | true =>
      rw [wrappedRegister_true_def]
      split
      · next hov =>
          cases hse : s.ephemeral with
          | nil =>
              rw [hse] at hov
              simp [MAX_EPHEMERAL] at hov
          | cons a t0 =>
              show (t0 ++ [tagEphemeral o]).length ≤ MAX_EPHEMERAL
              have h3 : (t0 ++ [tagEphemeral o]).length = t0.length + 1 := by simp
              have h2 : t0.length + 1 ≤ MAX_EPHEMERAL := by
                rw [hse] at h
                simpa using h
              omega
      · next hov =>
          simp only [List.length_append, List.length_cons, List.length_nil] at hov ⊢
          omega

theorem foldRegister_bound (ops : List EphObj) :
    ∀ init : ExecState, init.ephemeral.length ≤ MAX_EPHEMERAL →
      ((ops.foldl (fun t p => wrappedRegister true p t) init).ephemeral).length
        ≤ MAX_EPHEMERAL := by
  induction ops with
  | nil => intro init h; exact h
  | cons o rest ih => intro init h; exact ih _ (wrappedRegister_bound true o init h)

theorem wrappedRegister_evict (o : EphObj) (s : ExecState)
    (h : s.ephemeral.length = MAX_EPHEMERAL) :
    ∃ old rest, s.ephemeral = old :: rest ∧
      (wrappedRegister true o s).ephemeral = rest ++ [tagEphemeral o] ∧
      (wrappedRegister true o s).registry
        = unregisterObject old (s.registry ++ [tagEphemeral o]) ∧
      (wrappedRegister true o s).destroyedBodies
        = s.destroyedBodies ++ [old.bodyId] := by
  cases hse : s.ephemeral with
  | nil =>
      rw [hse] at h
      simp [MAX_EPHEMERAL] at h
  | cons a t0 =>
      have hov : MAX_EPHEMERAL < (s.ephemeral ++ [tagEphemeral o]).length := by
        simp only [List.length_append, List.length_cons, List.length_nil, h]
        omega
      refine ⟨a, t0, rfl, ?_, ?_, ?_⟩ <;>
        · rw [wrappedRegister_true_def, if_pos hov, hse]
          simp only [List.cons_append]

-- === C1 ===

/-- C1: the ephemeral ring buffer never exceeds MAX_EPHEMERAL (400) entries —
one in-update registration preserves the bound, any sequence of in-update
registrations from a within-bound state stays within bound — and a
registration arriving with the buffer full evicts exactly the oldest entry,
removing it from the registry and destroying its physics body. -/
theorem ephemeral_ring_buffer_spec (s : ExecState) (o : EphObj) (ops : List EphObj)
    (hb : s.ephemeral.length ≤ MAX_EPHEMERAL) :
    (wrappedRegister true o s).ephemeral.length ≤ MAX_EPHEMERAL ∧
    ((ops.foldl (fun t p => wrappedRegister true p t) s).ephemeral).length
      ≤ MAX_EPHEMERAL ∧
    (s.ephemeral.length = MAX_EPHEMERAL →
      ∃ old rest, s.ephemeral = old :: rest ∧
        (wrappedRegister true o s).ephemeral = rest ++ [tagEphemeral o] ∧
        (wrappedRegister true o s).registry
          = unregisterObject old (s.registry ++ [tagEphemeral o]) ∧
        (wrappedRegister true o s).destroyedBodies
          = s.destroyedBodies ++ [old.bodyId]) :=
  ⟨wrappedRegister_bound true o s hb, foldRegister_bound ops s hb,
    fun h => wrappedRegister_evict o s h⟩

/-- C1 witness: the 401st ephemeral registration on a full 400-entry buffer. -/
theorem ephemeral_ring_buffer_spec_witness :
    fullExecState.ephemeral.length ≤ MAX_EPHEMERAL ∧
    ((wrappedRegister true { bodyId := 9 } fullExecState).ephemeral.length
        ≤ MAX_EPHEMERAL ∧
      ((([] : List EphObj).foldl (fun t p => wrappedRegister true p t)
          fullExecState).ephemeral).length ≤ MAX_EPHEMERAL ∧
      (fullExecState.ephemeral.length = MAX_EPHEMERAL →
        ∃ old rest, fullExecState.ephemeral = old :: rest ∧
          (wrappedRegister true { bodyId := 9 } fullExecState).ephemeral
            = rest ++ [tagEphemeral { bodyId := 9 }] ∧
          (wrappedRegister true { bodyId := 9 } fullExecState).registry
            = unregisterObject old
                (fullExecState.registry ++ [tagEphemeral { bodyId := 9 }]) ∧
          (wrappedRegister true { bodyId := 9 } fullExecState).destroyedBodies
            = fullExecState.destroyedBodies ++ [old.bodyId])) :=
  ⟨by simp [fullExecState],
    ephemeral_ring_buffer_spec fullExecState { bodyId := 9 } [] (by simp [fullExecState])⟩

-- === C2 ===

/-- C2: registerObject outside any update marks the entity spawned, leaves the
ephemeral flag untouched, appends the body to the rootBodies of the invoking
execute() call and does not touch the ring buffer; inside an update it marks
the entity spawned and ephemeral, tags the body user data isEphemeral,
appends it to the ring buffer and does not extend rootBodies — for every
prior state, hence independent of how many registrations happened before. -/
theorem registerObject_classification (s : ExecState) (o : EphObj) :
    ((wrappedRegister false o s).registry = s.registry ++ [tagRoot o] ∧
     (wrappedRegister false o s).rootBodies = s.rootBodies ++ [o.bodyId] ∧
     (wrappedRegister false o s).ephemeral = s.ephemeral ∧
     (tagRoot o).spawned = true ∧ (tagRoot o).ephemeral = o.ephemeral) ∧
    ((wrappedRegister true o s).rootBodies = s.rootBodies ∧
     (tagEphemeral o).spawned = true ∧ (tagEphemeral o).ephemeral = true ∧
     (tagEphemeral o).bodyTagEphemeral = true ∧
     (∃ t, (wrappedRegister true o s).ephemeral = t ++ [tagEphemeral o]) ∧
     (s.ephemeral.length < MAX_EPHEMERAL →
       (wrappedRegister true o s).ephemeral = s.ephemeral ++ [tagEphemeral o] ∧
       (wrappedRegister true o s).registry = s.registry ++ [tagEphemeral o])) := by
  have hfalse := wrappedRegister_false_def o s
  refine ⟨⟨by rw [hfalse], by rw [hfalse], by rw [hfalse], rfl, rfl⟩,
    ?_, rfl, rfl, rfl, ?_, ?_⟩
  · rw [wrappedRegister_true_def]
    split
    · split <;> rfl
    · rfl
  · by_cases hov : MAX_EPHEMERAL < (s.ephemeral ++ [tagEphemeral o]).length
    · cases hse : s.ephemeral with
      | nil =>
          rw [hse] at hov
          simp [MAX_EPHEMERAL] at hov
      | cons a t0 =>
          refine ⟨t0, ?_⟩
          rw [wrappedRegister_true_def, if_pos hov, hse]
          simp only [List.cons_append]
    · exact ⟨s.ephemeral, by rw [wrappedRegister_true_def, if_neg hov]⟩
  · intro hlt
    have hov : ¬ MAX_EPHEMERAL < (s.ephemeral ++ [tagEphemeral o]).length := by
      simp only [List.length_append, List.length_cons, List.length_nil]
      omega
    rw [wrappedRegister_true_def, if_neg hov]
    exact ⟨rfl, rfl⟩

/-- C2 witness: both classifications evaluated from the empty executor
state. -/
theorem registerObject_classification_witness :
    (wrappedRegister false { bodyId := 3 } emptyExecState).rootBodies = [3] ∧
    (wrappedRegister false { bodyId := 3 } emptyExecState).ephemeral = [] ∧
    emptyExecState.ephemeral.length < MAX_EPHEMERAL ∧
    (wrappedRegister true { bodyId := 3 } emptyExecState).ephemeral
      = [tagEphemeral { bodyId := 3 }] ∧
    (wrappedRegister true { bodyId := 3 } emptyExecState).rootBodies = [] :=
  ⟨by simpa [emptyExecState] using
      (registerObject_classification emptyExecState { bodyId := 3 }).1.2.1,
    by simpa [emptyExecState] using
      (registerObject_classification emptyExecState { bodyId := 3 }).1.2.2.1,
    by simp [emptyExecState, MAX_EPHEMERAL],
    by simpa [emptyExecState] using
      ((registerObject_classification emptyExecState { bodyId := 3 }).2.2.2.2.2.2
        (by simp [emptyExecState, MAX_EPHEMERAL])).1,
    by simpa [emptyExecState] using
      (registerObject_classification emptyExecState { bodyId := 3 }).2.1⟩

-- === C7 ===

/-- C7 counterexample: a task whose rootBodies list is empty is not marked
dead and its inner update() is invoked, against the claim that the vacuous
all-inactive condition marks it dead and skips the call — the source guards
the check with rootBodies.length > 0. -/
theorem updater_empty_roots_cex :
    (updaterStep (fun _ => false) { dead := false, rootBodies := [] }).1.dead = false ∧
    (updaterStep (fun _ => false) { dead := false, rootBodies := [] }).2 = true := by
  constructor <;> rfl

/-- C7 (amended): for a task with a nonempty rootBodies list, if every root
body is inactive the wrapped update marks the task dead and returns without
invoking the inner update; a task with an empty rootBodies list is never
marked dead by this check and its inner update is always invoked; a task with
some active root body runs normally. -/
theorem updater_liveness_spec (f : ℕ → Bool) (u : UpdaterTask) :
    (u.rootBodies ≠ [] → (∀ b ∈ u.rootBodies, f b = false) →
      updaterStep f u = ({ u with dead := true }, false)) ∧
    (u.rootBodies = [] → updaterStep f u = (u, true)) ∧
    ((∃ b ∈ u.rootBodies, f b = true) → updaterStep f u = (u, true)) := by
  refine ⟨?_, ?_, ?_⟩
  · intro hne hall
    have h1 : 0 < u.rootBodies.length := List.length_pos.mpr hne
    have h2 : u.rootBodies.all (fun b => !f b) = true := by
      rw [List.all_eq_true]
      intro b hb
      simp [hall b hb]
    simp [updaterStep, h1, h2]
  · intro he
    simp [updaterStep, he]
  · rintro ⟨b, hb, hf⟩
    have h2 : u.rootBodies.all (fun b => !f b) = false := by
      simp only [List.all_eq_false]
      exact ⟨b, hb, by simp [hf]⟩
    simp [updaterStep, h2]

/-- C7 witness: the amended liveness behavior on a singleton dead-root task
and on a singleton live-root task. -/
theorem updater_liveness_spec_witness :
    ([4] : List ℕ) ≠ [] ∧
    (∀ b ∈ ([4] : List ℕ), (fun _ => false) b = false) ∧
    updaterStep (fun _ => false) { dead := false, rootBodies := [4] }
      = ({ dead := true, rootBodies := [4] }, false) ∧
    updaterStep (fun _ => true) { dead := false, rootBodies := [4] }
      = ({ dead := false, rootBodies := [4] }, true) :=
  ⟨by decide, by decide,
    (updater_liveness_spec (fun _ => false)
      { dead := false, rootBodies := [4] }).1 (by decide) (by decide),
    (updater_liveness_spec (fun _ => true)
      { dead := false, rootBodies := [4] }).2.2 ⟨4, by decide, rfl⟩⟩

-- === C6 ===

/-- C6 counterexample: the phases of one loop() tick restricted to the four
core phases do not occur in the claimed order state machine, boss, updater
tasks, physics step — the updater tasks run first. -/
theorem tick_phase_order_cex :
    (tickTrace true).filter isCorePhase ≠
      [TickPhase.stateMachineUpdate, TickPhase.bossUpdate,
       TickPhase.updaterRun, TickPhase.physicsStep] := by decide

/-- C6 (amended): each tick performs, in strict order, (1) the invocation of
the Updater Tasks, (2) the state-machine update, (3) the Boss Entity update,
and (4) exactly one physics-engine integration step; when combat is inactive
the state-machine and boss phases are skipped but the updater tasks and the
single physics step still run in that order. -/
theorem tick_phase_order_spec :
    (tickTrace true).filter isCorePhase =
      [TickPhase.updaterRun, TickPhase.stateMachineUpdate,
       TickPhase.bossUpdate, TickPhase.physicsStep] ∧
    (tickTrace true).count TickPhase.physicsStep = 1 ∧
    (tickTrace false).filter isCorePhase
      = [TickPhase.updaterRun, TickPhase.physicsStep] ∧
    (tickTrace false).count TickPhase.physicsStep = 1 := by decide

-- === C5 ===

/-- C5: for a fixed visual radius (at least the initial radius, as maintained
by the state machine) the suction force magnitude strictly decreases as the
distance grows over the admitted range (squared distance at least 1), equals
(baseStrength + growthStrength * (visualRadius - initialRadius)) / distance —
inverse-distance, not inverse-square — and the force vector is a positive
multiple of the offset from the body to the boss center. -/
theorem suction_force_spec (r d1 d2 dx dy d : ℚ)
    (hr : CRASH_INITIAL_RADIUS ≤ r)
    (h1 : 1 ≤ d1) (h12 : d1 < d2)
    (hd : d * d = dx * dx + dy * dy) (hdist : 1 ≤ d) :
    suctionForceMag r d2 < suctionForceMag r d1 ∧
    suctionForceMag r d1
      = (SUCTION_STRENGTH + SUCTION_GROWTH * (r - CRASH_INITIAL_RADIUS)) / d1 ∧
    ∃ c : ℚ, 0 < c ∧ suctionForceVec r dx dy d = (c * dx, c * dy) := by
  have hs : 0 < SUCTION_STRENGTH + SUCTION_GROWTH * (r - CRASH_INITIAL_RADIUS) := by
    unfold SUCTION_STRENGTH SUCTION_GROWTH CRASH_INITIAL_RADIUS at *
    nlinarith
  have hdpos : (0:ℚ) < d := by linarith
  refine ⟨?_, rfl, ?_⟩
  · unfold suctionForceMag
    exact div_lt_div_of_pos_left hs (by linarith) h12
  · refine ⟨(SUCTION_STRENGTH + SUCTION_GROWTH * (r - CRASH_INITIAL_RADIUS)) / (d * d),
      div_pos hs (mul_pos hdpos hdpos), ?_⟩
    unfold suctionForceVec suctionForceMag
    rw [Prod.mk.injEq]
    constructor <;> (field_simp; ring)

/-- C5 witness: the suction relation evaluated at radius 12, distances 1 and
2, and the offset (3, 4) at distance 5. -/
theorem suction_force_spec_witness :
    CRASH_INITIAL_RADIUS ≤ (12:ℚ) ∧ (1:ℚ) ≤ 1 ∧ (1:ℚ) < 2 ∧
    (5:ℚ) * 5 = 3 * 3 + 4 * 4 ∧ (1:ℚ) ≤ 5 ∧
    (suctionForceMag 12 2 < suctionForceMag 12 1 ∧
     suctionForceMag 12 1
       = (SUCTION_STRENGTH + SUCTION_GROWTH * (12 - CRASH_INITIAL_RADIUS)) / 1 ∧
     ∃ c : ℚ, 0 < c ∧ suctionForceVec 12 3 4 5 = (c * 3, c * 4)) :=
  ⟨by norm_num [CRASH_INITIAL_RADIUS], by norm_num, by norm_num, by norm_num, by norm_num,
    suction_force_spec 12 1 2 3 4 5 (by norm_num [CRASH_INITIAL_RADIUS]) (by norm_num)
      (by norm_num) (by norm_num) (by norm_num)⟩

end RevengeForDino
